import Mathlib

/-!
# A shallow embedding of the Vaja/Zumbra bytecode virtual machine

This file embeds, in Lean 4, the parts of the Vaja interpreter that the
verified claims are about: the runtime value model and dict-key hashing
(`object` package), the VM dispatch loop with its stack and frame
discipline (`vm` package), and the array built-in library (`object/builtins`
package).

Modelling conventions:

* Go `int64` values are Lean `Int`s; every arithmetic result is reduced by
  `wrap64`, which is two's-complement wrap-around into `[-2^63, 2^63)`.
* Go `uint64` values are `Nat`s reduced modulo `2^64`.
* The Go operand stack is a fixed 2048-slot array; it is modelled as a
  `List Obj` of that length, read with `List.getD` and written with
  `List.set` (a `List.set` past the end is a no-op, which is why theorems
  that read a pushed slot assume the stack has its real length).
* Fallible Go functions returning `error` become `Except VMErr _`; a Go
  runtime panic (index out of range, failed type assertion, division by
  zero) is modelled as the distinguished error kind `VMErr.goPanic`,
  which is distinct both from VM runtime errors (`VMErr.runtimeErr`) and
  from built-in error *values* (`Obj.errorObj`).
* Float values and the `Date` value (and its `OpGetAttr` opcode) are
  outside the embedding: floating point has no faithful shallow
  embedding here, and no verified claim involves them.  The dispatch
  branches that would reach them are omitted; on the operand types the
  claims quantify over (Integer, Boolean, Null, String, Array, Dict,
  Closure, Builtin) the embedded dispatch takes exactly the branches the
  Go source takes.
* Go compares interface values by pointer identity in the default branch
  of `executeComparison`.  For the canonical singletons (`True`, `False`,
  `Null`) identity coincides with structural equality and is modelled as
  such; for heap values of equal dynamic type, pointer identity is not
  expressible structurally and the embedding returns the distinguished
  `VMErr.unmodelled` there.  No claim reaches that branch.
-/

namespace Vaja

/-! ## Constants from vm.go -/

def StackSize : Nat := 2048
def GlobalSize : Nat := 65536
def MaxFrames : Nat := 1024

/-- Two's-complement wrap-around of an integer into the `int64` range
`[-2^63, 2^63)`: the semantics of Go `int64` arithmetic. -/
def wrap64 (x : Int) : Int := (x + 2 ^ 63) % 2 ^ 64 - 2 ^ 63

/-! ## The object model (object.go) -/

/-- `object.ObjectType` is a Go string; the type-tag constants below are
verbatim from object.go. -/
abbrev ObjectType := String

def INTEGER_OBJ : ObjectType := "INTEGER"
def BOOLEAN_OBJ : ObjectType := "BOOLEAN"
def NULL_OBJ : ObjectType := "NULL"
def ERROR_OBJ : ObjectType := "ERROR"
def STRING_OBJ : ObjectType := "STRING"
def BUILTIN_OBJ : ObjectType := "BUILTIN"
def ARRAY_OBJ : ObjectType := "ARRAY"
def DICT_OBJ : ObjectType := "DICT"

/-- Modelled from the spec: the compiled-function and closure object
variants live in an object-package file that was not provided; their
type-tag strings below are representative (no claim depends on them). -/
def COMPILED_FUNCTION_OBJ : ObjectType := "COMPILED_FUNCTION"

def CLOSURE_OBJ : ObjectType := "CLOSURE"

/-- `object.DictKey`: a pair of the type tag and a 64-bit unsigned value. -/
structure DictKey where
  type : ObjectType
  value : Nat
deriving DecidableEq

/-- `object.CompiledFunction`: instructions are a flat byte sequence. -/
structure CompiledFunction where
  instructions : List Nat
  numLocals : Nat
  numParameters : Nat

/-- The runtime value universe (`object.Object`).  A `Closure` is inlined
as its two fields; a `Builtin` holds the index of its host function in
the builtin table; a `Dict`'s Go hash map is an association list in which
the *most recent* insertion for a key shadows older ones (observably
equivalent to Go map assignment/lookup). -/
inductive Obj where
  | intObj (value : Int)
  | boolObj (value : Bool)
  | nullObj
  | strObj (value : String)
  | arrayObj (elements : List Obj)
  | dictObj (pairs : List (DictKey × Obj × Obj))
  | compiledFnObj (fn : CompiledFunction)
  | closureObj (fn : CompiledFunction) (free : List Obj)
  | builtinObj (id : Nat)
  | errorObj (message : String)

open Obj

/-- The `Type()` method of each object variant. -/
def typeOf : Obj → ObjectType
  | intObj _ => INTEGER_OBJ
  | boolObj _ => BOOLEAN_OBJ
  | nullObj => NULL_OBJ
  | strObj _ => STRING_OBJ
  | arrayObj _ => ARRAY_OBJ
  | dictObj _ => DICT_OBJ
  | compiledFnObj _ => COMPILED_FUNCTION_OBJ
  | closureObj _ _ => CLOSURE_OBJ
  | builtinObj _ => BUILTIN_OBJ
  | errorObj _ => ERROR_OBJ

/-! ## Dict-key hashing (object.go `DictKey()` methods) -/

/-- UTF-8 encoding of one character (Go strings are UTF-8 byte
sequences). -/
def utf8Bytes (c : Char) : List Nat :=
  let n := c.toNat
  if n < 0x80 then [n]
  else if n < 0x800 then
    [0xC0 ||| (n >>> 6), 0x80 ||| (n &&& 0x3F)]
  else if n < 0x10000 then
    [0xE0 ||| (n >>> 12), 0x80 ||| ((n >>> 6) &&& 0x3F), 0x80 ||| (n &&& 0x3F)]
  else
    [0xF0 ||| (n >>> 18), 0x80 ||| ((n >>> 12) &&& 0x3F),
     0x80 ||| ((n >>> 6) &&& 0x3F), 0x80 ||| (n &&& 0x3F)]

/-- The UTF-8 bytes of a string. -/
def strBytes (s : String) : List Nat := (s.data.map utf8Bytes).flatten

/-- 64-bit FNV-1a over a byte list (`hash/fnv`'s `New64a`/`Write`/`Sum64`):
start from the offset basis, xor in each byte, multiply by the FNV prime,
all modulo `2^64`. -/
def fnv1a64 (bytes : List Nat) : Nat :=
  bytes.foldl (fun h b => ((h ^^^ b) * 1099511628211) % 2 ^ 64)
    14695981039346656037

/-- The `DictKey()` projection, merging the three `DictKey()` methods of
object.go and the `object.Dictable` interface cast: only Integer,
Boolean and String values are hashable (`none` models a failed cast). -/
def dictKeyOf : Obj → Option DictKey
  | intObj v => some ⟨INTEGER_OBJ, (v % 2 ^ 64).toNat⟩
  | boolObj b => some ⟨BOOLEAN_OBJ, if b then 1 else 0⟩
  | strObj s => some ⟨STRING_OBJ, fnv1a64 (strBytes s)⟩
  | _ => none

/-! ## Frames and VM state (frame.go, vm.go) -/

/-- A call frame: the closure being executed (inlined as function +
free list), the instruction pointer (a Go `int`, initially `-1`), and
the base pointer into the operand stack. -/
structure Frame where
  clFn : CompiledFunction
  clFree : List Obj
  ip : Int
  basePointer : Nat

/-- The error plane of `vm.Run`: `runtimeErr` is an `error` returned by
the Go code, `goPanic` a Go runtime panic (crash), and `unmodelled`
marks the one dispatch branch (pointer identity of same-type heap
values) that has no shallow-embedding analogue. -/
inductive VMErr where
  | runtimeErr (msg : String)
  | goPanic (msg : String)
  | unmodelled (what : String)
deriving DecidableEq

/-- The VM state.  `frames` lists the live frames with the *current*
(innermost) frame at the head; its length is Go's `framesIndex`. -/
structure VM where
  constants : List Obj
  stack : List Obj
  sp : Nat
  globals : List Obj
  frames : List Frame

/-- `vm.push`: bounds-checked write of the next free stack slot. -/
def pushVM (vm : VM) (o : Obj) : Except VMErr VM :=
  if vm.sp ≥ StackSize then .error (.runtimeErr ("stack overflow"))
  else .ok { vm with stack := vm.stack.set vm.sp o, sp := vm.sp + 1 }

/-- The successful result state of `vm.push` (for stating theorems). -/
def pushedVM (vm : VM) (o : Obj) : VM :=
  { vm with stack := vm.stack.set vm.sp o, sp := vm.sp + 1 }

/-- `vm.pop`: unchecked read of the top slot and stack-pointer
decrement.  (Go would panic on `sp = 0`; every theorem below carries the
stack-depth hypotheses that keep pops in range.) -/
def popVM (vm : VM) : Obj × VM :=
  (vm.stack.getD (vm.sp - 1) nullObj, { vm with sp := vm.sp - 1 })

/-- The state after `n` bare pops (for stating theorems). -/
def droppedVM (vm : VM) (n : Nat) : VM := { vm with sp := vm.sp - n }

/-! ## Opcode bytes

The numeric opcode values live in the `code` package, which is not part
of the provided sources.  Modelled from the spec: the opcode *names*,
their operand widths (16-bit big-endian or 8-bit operands) and the
handler attached to each name are fixed by spec §4.1 and by vm.go; the
concrete byte assigned to each name below is a representative numbering
(no claim depends on the numbering, only on the handler dispatched). -/

def OpConstant : Nat := 0
def OpAdd : Nat := 1
def OpSub : Nat := 2
def OpMul : Nat := 3
def OpDiv : Nat := 4
def OpMod : Nat := 5
def OpAnd : Nat := 6
def OpOr : Nat := 7
def OpEqual : Nat := 8
def OpNotEqual : Nat := 9
def OpGreaterThan : Nat := 10
def OpLessThan : Nat := 11
def OpGreaterThanOrEqual : Nat := 12
def OpLessThanOrEqual : Nat := 13
def OpTrue : Nat := 14
def OpFalse : Nat := 15
def OpBang : Nat := 16
def OpMinus : Nat := 17
def OpPop : Nat := 18
def OpJump : Nat := 19
def OpJumpNotTruthy : Nat := 20
def OpNull : Nat := 21
def OpSetGlobal : Nat := 22
def OpGetGlobal : Nat := 23
def OpArray : Nat := 24
def OpDict : Nat := 25
def OpIndex : Nat := 26
def OpCall : Nat := 27
def OpReturnValue : Nat := 28
def OpReturn : Nat := 29
def OpSetLocal : Nat := 30
def OpGetLocal : Nat := 31
def OpGetBuiltin : Nat := 32
def OpClosure : Nat := 33
def OpGetFree : Nat := 34
def OpCurrentClosure : Nat := 35
def OpWhile : Nat := 36

/-- `code.ReadUint16`: big-endian 16-bit read at an offset (spec §4.1). -/
def readUint16 (ins : List Nat) (i : Nat) : Nat :=
  256 * ins.getD i 0 + ins.getD (i + 1) 0

/-- `code.ReadUint8`: single-byte read at an offset (spec §4.1). -/
def readUint8 (ins : List Nat) (i : Nat) : Nat := ins.getD i 0

/-! ## Arithmetic and comparison handlers (vm.go) -/

/-- `nativeBoolToBooleanObject`: the Go function returns the `True` /
`False` singletons, which the structural model renders as `boolObj`. -/
def nativeBoolToBooleanObject (input : Bool) : Obj := boolObj input

/-- `isTruthy`: booleans by value, `Null` false, everything else true. -/
def isTruthy : Obj → Bool
  | boolObj b => b
  | nullObj => false
  | _ => true

/-- `vm.executeBinaryIntegerOperation` (vm.go:405): Go `int64` arithmetic
with two's-complement wrap-around; `/` truncates toward zero
(`Int.tdiv`) and `%` takes the dividend's sign (`Int.tmod`), both as in
Go; a zero divisor is a Go runtime panic. -/
def executeBinaryIntegerOperation (vm : VM) (op : Nat) (leftValue rightValue : Int) :
    Except VMErr VM :=
  if op = OpAdd then pushVM vm (intObj (wrap64 (leftValue + rightValue)))
  else if op = OpSub then pushVM vm (intObj (wrap64 (leftValue - rightValue)))
  else if op = OpMul then pushVM vm (intObj (wrap64 (leftValue * rightValue)))
  else if op = OpDiv then
    if rightValue = 0 then .error (.goPanic ("integer divide by zero"))
    else pushVM vm (intObj (wrap64 (leftValue.tdiv rightValue)))
  else if op = OpMod then
    if rightValue = 0 then .error (.goPanic ("integer divide by zero"))
    else pushVM vm (intObj (wrap64 (leftValue.tmod rightValue)))
  else .error (.runtimeErr ("unknown integer operator: " ++ toString op))

/-- `vm.executeBinaryStringOperation` (vm.go:495): only `OpAdd`
(concatenation) is defined on two strings. -/
def executeBinaryStringOperation (vm : VM) (op : Nat) (leftValue rightValue : String) :
    Except VMErr VM :=
  if op ≠ OpAdd then .error (.runtimeErr ("unknown string operator: " ++ toString op))
  else pushVM vm (strObj (leftValue ++ rightValue))

/-- `vm.executeBinaryOperation` (vm.go:376): pop right then left and
dispatch on the operand type tags.  The two Float branches of the source
are outside the embedding (see the header); on Float-free operands the
embedded dispatch is branch-for-branch the Go dispatch. -/
def executeBinaryOperation (vm : VM) (op : Nat) : Except VMErr VM :=
  let (right, vm) := popVM vm
  let (left, vm) := popVM vm
  match left, right with
  | intObj l, intObj r => executeBinaryIntegerOperation vm op l r
  | strObj l, strObj r => executeBinaryStringOperation vm op l r
  | _, _ =>
    .error (.runtimeErr ("unsupported types for binary operation: "
      ++ typeOf left ++ " " ++ typeOf right))

/-- `vm.executeIntegerComparison` (vm.go:617). -/
def executeIntegerComparison (vm : VM) (op : Nat) (leftValue rightValue : Int) :
    Except VMErr VM :=
  if op = OpEqual then pushVM vm (nativeBoolToBooleanObject (rightValue = leftValue))
  else if op = OpNotEqual then pushVM vm (nativeBoolToBooleanObject (rightValue ≠ leftValue))
  else if op = OpGreaterThan then pushVM vm (nativeBoolToBooleanObject (leftValue > rightValue))
  else if op = OpLessThan then pushVM vm (nativeBoolToBooleanObject (leftValue < rightValue))
  else if op = OpGreaterThanOrEqual then
    pushVM vm (nativeBoolToBooleanObject (leftValue ≥ rightValue))
  else if op = OpLessThanOrEqual then
    pushVM vm (nativeBoolToBooleanObject (leftValue ≤ rightValue))
  else .error (.runtimeErr ("unknown operator: " ++ toString op))

/-- `vm.executeStringComparison` (vm.go:606): the source early-returns
an error for every opcode other than `OpEqual` — including
`OpNotEqual`. -/
def executeStringComparison (vm : VM) (op : Nat) (leftValue rightValue : String) :
    Except VMErr VM :=
  if op ≠ OpEqual then .error (.runtimeErr ("unknown string operator: " ++ toString op))
  else pushVM vm (nativeBoolToBooleanObject (leftValue = rightValue))

/-- Go interface-pointer equality (`right == left`) for the fallback
branch of `executeComparison`: values of different dynamic type are
unequal; the canonical singletons compare by value; identity of two
same-type heap values is not structurally expressible (`none`). -/
def goIdentityEq : Obj → Obj → Option Bool
  | boolObj a, boolObj b => some (a == b)
  | nullObj, nullObj => some true
  | boolObj _, nullObj => some false
  | nullObj, boolObj _ => some false
  | a, b => if typeOf a = typeOf b then none else some false

/-- `vm.executeComparison` (vm.go:506): pop right then left; integers
and strings go to their own comparators (the Float branches are outside
the embedding); everything else falls back to identity comparison for
`==`/`!=` and errors otherwise. -/
def executeComparison (vm : VM) (op : Nat) : Except VMErr VM :=
  let (right, vm) := popVM vm
  let (left, vm) := popVM vm
  match left, right with
  | intObj l, intObj r => executeIntegerComparison vm op l r
  | strObj l, strObj r => executeStringComparison vm op l r
  | l, r =>
    if op = OpEqual then
      match goIdentityEq r l with
      | some b => pushVM vm (nativeBoolToBooleanObject b)
      | none => .error (.unmodelled ("pointer identity of same-type heap values"))
    else if op = OpNotEqual then
      match goIdentityEq r l with
      | some b => pushVM vm (nativeBoolToBooleanObject (!b))
      | none => .error (.unmodelled ("pointer identity of same-type heap values"))
    else
      .error (.runtimeErr ("unknown operator: " ++ toString op
        ++ " (" ++ typeOf l ++ " " ++ typeOf r ++ ")"))

/-! ## Prefix operator handlers (vm.go) -/

/-- `vm.executeBangOperator` (vm.go:646): pop and push the truthiness
negation (the Go switch on the `True`/`False`/`Null` singletons). -/
def executeBangOperator (vm : VM) : Except VMErr VM :=
  let (val, vm) := popVM vm
  match val with
  | boolObj true => pushVM vm (boolObj false)
  | boolObj false => pushVM vm (boolObj true)
  | nullObj => pushVM vm (boolObj true)
  | _ => pushVM vm (boolObj false)

/-- `vm.executeMinusOperator` (vm.go:661): integers only. -/
def executeMinusOperator (vm : VM) : Except VMErr VM :=
  let (val, vm) := popVM vm
  match val with
  | intObj v => pushVM vm (intObj (wrap64 (-v)))
  | _ => .error (.runtimeErr ("unsupported type for negation: " ++ typeOf val))

/-! ## Array and dict construction (vm.go) -/

/-- The stack slots `[startIndex, endIndex)` as a list (used by
`buildArray` and by the built-in argument slice). -/
def stackSlice (stack : List Obj) (startIndex endIndex : Nat) : List Obj :=
  (List.range (endIndex - startIndex)).map fun i => stack.getD (startIndex + i) nullObj

/-- `vm.buildArray` (vm.go:689). -/
def buildArray (stack : List Obj) (startIndex endIndex : Nat) : Obj :=
  arrayObj (stackSlice stack startIndex endIndex)

/-- Lookup in the association-list rendering of a Go dict: the most
recent insertion for a key wins. -/
def dictLookup (k : DictKey) : List (DictKey × Obj × Obj) → Option (Obj × Obj)
  | [] => none
  | (k', p) :: rest => if k' = k then some p else dictLookup k rest

/-- The key/value stack slots `[i, endIndex)` taken two at a time, as
`vm.buildDict`'s loop reads them. -/
def slicePairs (stack : List Obj) (i endIndex : Nat) : List (Obj × Obj) :=
  if _ : i < endIndex then
    (stack.getD i nullObj, stack.getD (i + 1) nullObj) :: slicePairs stack (i + 2) endIndex
  else []
termination_by endIndex - i

/-- The body of `vm.buildDict`'s loop: map-assign each key/value pair in
order (a cons shadows any older entry for the same key), failing on the
first unhashable key. -/
def dictEntries : List (Obj × Obj) → List (DictKey × Obj × Obj) →
    Except VMErr (List (DictKey × Obj × Obj))
  | [], acc => .ok acc
  | (key, value) :: rest, acc =>
    match dictKeyOf key with
    | none => .error (.runtimeErr ("unusable as hash key: " ++ typeOf key))
    | some dk => dictEntries rest ((dk, key, value) :: acc)

/-- `vm.buildDict` (vm.go:699): iterate the stack slots
`startIndex, startIndex+2, …` below `endIndex` as key/value pairs. -/
def buildDict (stack : List Obj) (startIndex endIndex : Nat) : Except VMErr Obj :=
  match dictEntries (slicePairs stack startIndex endIndex) [] with
  | .error e => .error e
  | .ok entries => .ok (dictObj entries)

/-! ## Indexing (vm.go) -/

/-- `vm.executeArrayIndex` (vm.go:730): out-of-range pushes `Null`. -/
def executeArrayIndex (vm : VM) (elements : List Obj) (i : Int) : Except VMErr VM :=
  if i < 0 ∨ i > (elements.length : Int) - 1 then pushVM vm nullObj
  else pushVM vm (elements.getD i.toNat nullObj)

/-- `vm.executeDictIndex` (vm.go:742): unhashable index errors; a miss
pushes `Null`; a hit pushes the stored value. -/
def executeDictIndex (vm : VM) (pairs : List (DictKey × Obj × Obj)) (index : Obj) :
    Except VMErr VM :=
  match dictKeyOf index with
  | none => .error (.runtimeErr ("unusable as hash key: " ++ typeOf index))
  | some k =>
    match dictLookup k pairs with
    | none => pushVM vm nullObj
    | some pair => pushVM vm pair.2

/-- `vm.executeIndexExpression` (vm.go:719): Array+Integer, then Dict
with any index, then error. -/
def executeIndexExpression (vm : VM) (left index : Obj) : Except VMErr VM :=
  match left, index with
  | arrayObj elements, intObj i => executeArrayIndex vm elements i
  | dictObj pairs, _ => executeDictIndex vm pairs index
  | _, _ => .error (.runtimeErr ("index operator not supported: " ++ typeOf left))

/-! ## The built-in library (object/builtins)

A built-in is a Go function from an argument slice to an object or Go
`nil`; it cannot return a Go `error`, only *panic*.  So a built-in is
embedded as `List Obj → Except String (Option Obj)` where `.ok none` is
a Go `nil` result, `.ok (some o)` a returned object (possibly of error
kind), and `.error msg` a Go runtime panic.  `NewError` itself lives in
a source file that was not provided; modelled from the spec: it
constructs a value of error kind from a message. -/

/-- The result type of a built-in invocation. -/
abbrev BuiltinResult := Except String (Option Obj)

/-- Modelled from the spec: `builtins.NewError` wraps a message into an
error-kind value ("reports a typed error value"). -/
def NewError (msg : String) : Obj := errorObj msg

/-- Modelled from the spec: `builtins.NewInteger`. -/
def NewInteger (v : Int) : Obj := intObj v

/-- The Go type assertion `el.(*object.Integer)`: its value on an
Integer, a runtime panic on anything else. -/
def goAssertInteger (o : Obj) : Except String Int :=
  match o with
  | intObj v => .ok v
  | _ => .error ("interface conversion: object.Object is not *object.Integer: "
      ++ typeOf o)

/-- The loop of `builtins.MaxBuiltin` (array_builtins.go:85-90): Go
compares `math.Max(float64 max, float64 el) == float64 el`, i.e. keeps
`el` whenever it is at least the running maximum after conversion to
`float64`.  The embedding compares the integers directly; this agrees
with the source whenever the conversions are exact (all magnitudes below
`2^53`) and no settled claim depends on which element wins. -/
def maxLoop (current : Obj) : List Obj → Except String Obj
  | [] => .ok current
  | el :: rest => do
    let mv ← goAssertInteger current
    let ev ← goAssertInteger el
    if mv ≤ ev then maxLoop el rest else maxLoop current rest

/-- `builtins.MaxBuiltin` (array_builtins.go:71): validates arity and
the ARRAY type, returns Go `nil` on an empty array, then folds the
unchecked type assertions of the loop. -/
def MaxBuiltin (args : List Obj) : BuiltinResult :=
  if args.length ≠ 1 then
    .ok (some (NewError ("wrong number of arguments. got=" ++ toString args.length
      ++ ", want=1")))
  else
    match args.headD nullObj with
    | arrayObj elements =>
      match elements with
      | [] => .ok none
      | first :: rest =>
        match maxLoop first rest with
        | .error panicMsg => .error panicMsg
        | .ok m => .ok (some m)
    | a => .ok (some (NewError ("argument to `max` must be ARRAY, got " ++ typeOf a)))

/-- The loop of `builtins.MinBuiltin`, under the same `float64`
comparison caveat as `maxLoop`. -/
def minLoop (current : Obj) : List Obj → Except String Obj
  | [] => .ok current
  | el :: rest => do
    let mv ← goAssertInteger current
    let ev ← goAssertInteger el
    if ev ≤ mv then minLoop el rest else minLoop current rest

/-- `builtins.MinBuiltin` (array_builtins.go:96). -/
def MinBuiltin (args : List Obj) : BuiltinResult :=
  if args.length ≠ 1 then
    .ok (some (NewError ("wrong number of arguments. got=" ++ toString args.length
      ++ ", want=1")))
  else
    match args.headD nullObj with
    | arrayObj elements =>
      match elements with
      | [] => .ok none
      | first :: rest =>
        match minLoop first rest with
        | .error panicMsg => .error panicMsg
        | .ok m => .ok (some m)
    | a => .ok (some (NewError ("argument to `min` must be ARRAY, got " ++ typeOf a)))

/-- `builtins.ArrayFirstBuiltin` (array_builtins.go:122): Go `nil` on an
empty array. -/
def ArrayFirstBuiltin (args : List Obj) : BuiltinResult :=
  if args.length ≠ 1 then
    .ok (some (NewError ("wrong number of arguments. got=" ++ toString args.length
      ++ ", want=1")))
  else
    match args.headD nullObj with
    | arrayObj elements =>
      match elements with
      | first :: _ => .ok (some first)
      | [] => .ok none
    | a => .ok (some (NewError ("argument to `first` must be ARRAY, got " ++ typeOf a)))

/-- `builtins.ArrayLastBuiltin` (array_builtins.go:143). -/
def ArrayLastBuiltin (args : List Obj) : BuiltinResult :=
  if args.length ≠ 1 then
    .ok (some (NewError ("wrong number of arguments. got=" ++ toString args.length
      ++ ", want=1")))
  else
    match args.headD nullObj with
    | arrayObj elements =>
      if elements.length > 0 then .ok (some (elements.getLastD nullObj))
      else .ok none
    | a => .ok (some (NewError ("argument to `last` must be ARRAY, got " ++ typeOf a)))

/-- `builtins.AllButFirstBuiltin` (array_builtins.go:165): a fresh array
of all elements but the first, Go `nil` on an empty array. -/
def AllButFirstBuiltin (args : List Obj) : BuiltinResult :=
  if args.length ≠ 1 then
    .ok (some (NewError ("wrong number of arguments. got=" ++ toString args.length
      ++ ", want=1")))
  else
    match args.headD nullObj with
    | arrayObj elements =>
      match elements with
      | _ :: rest => .ok (some (arrayObj rest))
      | [] => .ok none
    | a => .ok (some (NewError ("argument to `allButFirst` must be ARRAY, got " ++ typeOf a)))

/-- Insertion of one integer into an ascending list (for the sort in
`organize`). -/
def insertAsc (x : Int) : List Int → List Int
  | [] => [x]
  | y :: ys => if x ≤ y then x :: y :: ys else y :: insertAsc x ys

/-- Ascending insertion sort (the observable effect of Go's
`sort.Slice` on integer values: some sorted permutation). -/
def sortAsc (l : List Int) : List Int := l.foldr insertAsc []

/-- The element values of an all-Integer array; panics (as the
`sort.Slice` comparator's type assertions do) on the first non-Integer
element. -/
def assertAllIntegers : List Obj → Except String (List Int)
  | [] => .ok []
  | el :: rest => do
    let v ← goAssertInteger el
    let vs ← assertAllIntegers rest
    .ok (v :: vs)

/-- `builtins.OrganizeBuiltins` (array_builtins.go:235).  There is *no*
arity check: the very first use of `args` is `args[0].Type()`, which on
an empty argument list is a Go index-out-of-range panic.  The
`sort.Slice` comparator type-asserts the elements to Integer, a panic on
the first non-Integer comparison; with fewer than two elements the
comparator never runs.  An unknown direction string sorts nothing. -/
def OrganizeBuiltins (args : List Obj) : BuiltinResult :=
  match args with
  | [] => .error ("runtime error: index out of range [0] with length 0")
  | a0 :: rest =>
    match a0 with
    | arrayObj elements =>
      let by_ := match rest.headD nullObj with
        | strObj s => s
        | _ => "asc"
      if by_ = "asc" then
        match elements with
        | [] => .ok (some (arrayObj elements))
        | [_] => .ok (some (arrayObj elements))
        | _ =>
          match assertAllIntegers elements with
          | .error panicMsg => .error panicMsg
          | .ok vs => .ok (some (arrayObj ((sortAsc vs).map intObj)))
      else if by_ = "desc" then
        match elements with
        | [] => .ok (some (arrayObj elements))
        | [_] => .ok (some (arrayObj elements))
        | _ =>
          match assertAllIntegers elements with
          | .error panicMsg => .error panicMsg
          | .ok vs => .ok (some (arrayObj ((sortAsc vs).reverse.map intObj)))
      else .ok (some (arrayObj elements))
    | a => .ok (some (NewError ("first argument to `organize` must be ARRAY, got "
        ++ typeOf a)))

/-- The builtin table (`builtins.Builtins`): the file fixing the order
of the builtin slice was not provided.  Modelled from the spec: built-ins
occupy a fixed-order table indexed by `OpGetBuiltin`'s operand; the
numbering below is representative (no claim depends on it), the entries
are the source functions above.  Indices outside the embedded part of
the table are an unmodelled host function. -/
def builtinFns : Nat → (List Obj → BuiltinResult)
  | 0 => ArrayFirstBuiltin
  | 1 => ArrayLastBuiltin
  | 2 => AllButFirstBuiltin
  | 3 => MinBuiltin
  | 4 => MaxBuiltin
  | 5 => OrganizeBuiltins
  | _ => fun _ => .error ("unmodelled builtin")

/-! ## Calls and frames (vm.go, frame.go) -/

/-- `NewFrame`: ip starts at `-1`. -/
def NewFrame (fn : CompiledFunction) (free : List Obj) (basePointer : Nat) : Frame :=
  { clFn := fn, clFree := free, ip := -1, basePointer := basePointer }

/-- `vm.pushFrame`: Go writes `frames[framesIndex]` into a fixed array
of `MaxFrames` slots, so a full frame stack is an index-out-of-range
panic. -/
def pushFrame (vm : VM) (f : Frame) : Except VMErr VM :=
  if vm.frames.length ≥ MaxFrames then
    .error (.goPanic ("runtime error: index out of range"))
  else .ok { vm with frames := f :: vm.frames }

/-- `vm.callClosure` (vm.go:771): arity check, then a new frame at
`base-pointer = sp − numArgs` and `sp = base-pointer + NumLocals`. -/
def callClosure (vm : VM) (fn : CompiledFunction) (free : List Obj) (numArgs : Nat) :
    Except VMErr VM :=
  if numArgs ≠ fn.numParameters then
    .error (.runtimeErr ("wrong number of arguments: want=" ++ toString fn.numParameters
      ++ ", got=" ++ toString numArgs))
  else
    let frame := NewFrame fn free (vm.sp - numArgs)
    match pushFrame vm frame with
    | .error e => .error e
    | .ok vm' => .ok { vm' with sp := frame.basePointer + fn.numLocals }

/-- `vm.callBuiltin` (vm.go:796): the argument slice is
`stack[sp−numArgs : sp]`; afterwards `sp = sp − numArgs − 1` and the
result — or `Null` when the built-in returned Go `nil` — is pushed.  A
panic inside the built-in crashes the VM. -/
def callBuiltin (vm : VM) (fn : List Obj → BuiltinResult) (numArgs : Nat) :
    Except VMErr VM :=
  let args := stackSlice vm.stack (vm.sp - numArgs) vm.sp
  match fn args with
  | .error panicMsg => .error (.goPanic panicMsg)
  | .ok result =>
    let vm := { vm with sp := vm.sp - numArgs - 1 }
    match result with
    | some r => pushVM vm r
    | none => pushVM vm nullObj

/-- `vm.executeCall` (vm.go:783): the callee sits below the arguments at
`stack[sp − 1 − numArgs]`. -/
def executeCall (vm : VM) (numArgs : Nat) : Except VMErr VM :=
  let callee := vm.stack.getD (vm.sp - 1 - numArgs) nullObj
  match callee with
  | closureObj fn free => callClosure vm fn free numArgs
  | builtinObj id => callBuiltin vm (builtinFns id) numArgs
  | _ =>
    .error (.runtimeErr ("calling non-function and non-built-in object: "
      ++ typeOf callee))

/-- `vm.pushClosure` (vm.go:811): the constant must be a
`CompiledFunction`; capture `stack[sp−numFree .. sp]` as the free list,
drop those slots, push the closure. -/
def pushClosure (vm : VM) (constIndex numFree : Nat) : Except VMErr VM :=
  match vm.constants.getD constIndex nullObj with
  | compiledFnObj fn =>
    let free := stackSlice vm.stack (vm.sp - numFree) vm.sp
    let vm := { vm with sp := vm.sp - numFree }
    pushVM vm (closureObj fn free)
  | c => .error (.runtimeErr ("not a function: " ++ typeOf c))

/-! ## The dispatch loop (vm.Run, vm.go:75) -/

/-- Replace the current (head) frame's instruction pointer
(`vm.currentFrame().ip = …`). -/
def setIp (vm : VM) (i : Int) : VM :=
  match vm.frames with
  | [] => vm
  | f :: rest => { vm with frames := { f with ip := i } :: rest }

/-- `vm.currentFrame()` — Go would panic on an empty frame stack; the
default here is inert because every theorem fixes the frame list. -/
def currentFrame (vm : VM) : Frame := vm.frames.headD (NewFrame ⟨[], 0, 0⟩ [] 0)

/-- Whether `vm.Run`'s loop takes another iteration:
`currentFrame.ip < len(instructions) − 1`. -/
def runContinues (vm : VM) : Prop :=
  (currentFrame vm).ip < ((currentFrame vm).clFn.instructions.length : Int) - 1

/-- One iteration of the `vm.Run` dispatch loop body (vm.go:75-353):
increment the current frame's ip, read the opcode byte there, and
execute its case of the switch.  The `OpGetAttr` case (Date values) is
outside the embedding; an opcode byte with no case falls through the Go
switch doing nothing, which the final branch mirrors. -/
def stepVM (vm0 : VM) : Except VMErr VM :=
  match vm0.frames with
  | [] => .error (.goPanic ("runtime error: index out of range"))
  | fr :: rest =>
    let ip : Int := fr.ip + 1
    let vm : VM := { vm0 with frames := { fr with ip := ip } :: rest }
    let ins := fr.clFn.instructions
    let pc : Nat := ip.toNat
    let op := ins.getD pc 0
    if op = OpConstant then
      let constIndex := readUint16 ins (pc + 1)
      let vm := setIp vm (ip + 2)
      pushVM vm (vm.constants.getD constIndex nullObj)
    else if op = OpAdd ∨ op = OpSub ∨ op = OpMul ∨ op = OpDiv ∨ op = OpMod then
      executeBinaryOperation vm op
    else if op = OpAnd then
      let (right, vm) := popVM vm
      let (left, vm) := popVM vm
      pushVM vm (nativeBoolToBooleanObject (isTruthy left && isTruthy right))
    else if op = OpOr then
      let (right, vm) := popVM vm
      let (left, vm) := popVM vm
      pushVM vm (nativeBoolToBooleanObject (isTruthy left || isTruthy right))
    else if op = OpEqual ∨ op = OpNotEqual ∨ op = OpGreaterThan ∨ op = OpLessThan
        ∨ op = OpLessThanOrEqual ∨ op = OpGreaterThanOrEqual then
      executeComparison vm op
    else if op = OpTrue then pushVM vm (boolObj true)
    else if op = OpFalse then pushVM vm (boolObj false)
    else if op = OpBang then executeBangOperator vm
    else if op = OpMinus then executeMinusOperator vm
    else if op = OpPop then .ok (popVM vm).2
    else if op = OpJump then
      let pos := readUint16 ins (pc + 1)
      .ok (setIp vm ((pos : Int) - 1))
    else if op = OpJumpNotTruthy then
      let pos := readUint16 ins (pc + 1)
      let vm := setIp vm (ip + 2)
      let (condition, vm) := popVM vm
      if isTruthy condition then .ok vm else .ok (setIp vm ((pos : Int) - 1))
    else if op = OpNull then pushVM vm nullObj
    else if op = OpSetGlobal then
      let globalIndex := readUint16 ins (pc + 1)
      let vm := setIp vm (ip + 2)
      let (v, vm) := popVM vm
      .ok { vm with globals := vm.globals.set globalIndex v }
    else if op = OpGetGlobal then
      let globalIndex := readUint16 ins (pc + 1)
      let vm := setIp vm (ip + 2)
      pushVM vm (vm.globals.getD globalIndex nullObj)
    else if op = OpArray then
      let numElements := readUint16 ins (pc + 1)
      let vm := setIp vm (ip + 2)
      let array := buildArray vm.stack (vm.sp - numElements) vm.sp
      let vm := { vm with sp := vm.sp - numElements }
      pushVM vm array
    else if op = OpDict then
      let numElements := readUint16 ins (pc + 1)
      let vm := setIp vm (ip + 2)
      match buildDict vm.stack (vm.sp - numElements) vm.sp with
      | .error e => .error e
      | .ok dict =>
        let vm := { vm with sp := vm.sp - numElements }
        pushVM vm dict
    else if op = OpIndex then
      let (index, vm) := popVM vm
      let (left, vm) := popVM vm
      executeIndexExpression vm left index
    else if op = OpCall then
      let numArgs := readUint8 ins (pc + 1)
      let vm := setIp vm (ip + 1)
      executeCall vm numArgs
    else if op = OpReturnValue then
      let (returnValue, vm) := popVM vm
      match vm.frames with
      | [] => .error (.goPanic ("runtime error: index out of range"))
      | f :: below =>
        let vm := { vm with frames := below, sp := f.basePointer - 1 }
        pushVM vm returnValue
    else if op = OpReturn then
      match vm.frames with
      | [] => .error (.goPanic ("runtime error: index out of range"))
      | f :: below =>
        let vm := { vm with frames := below, sp := f.basePointer - 1 }
        pushVM vm nullObj
    else if op = OpSetLocal then
      let localIndex := readUint8 ins (pc + 1)
      let vm := setIp vm (ip + 1)
      let (v, vm) := popVM vm
      .ok { vm with stack := vm.stack.set ((currentFrame vm).basePointer + localIndex) v }
    else if op = OpGetLocal then
      let localIndex := readUint8 ins (pc + 1)
      let vm := setIp vm (ip + 1)
      pushVM vm (vm.stack.getD ((currentFrame vm).basePointer + localIndex) nullObj)
    else if op = OpGetBuiltin then
      let builtinIndex := readUint8 ins (pc + 1)
      let vm := setIp vm (ip + 1)
      pushVM vm (builtinObj builtinIndex)
    else if op = OpClosure then
      let constIndex := readUint16 ins (pc + 1)
      let numFree := readUint8 ins (pc + 3)
      let vm := setIp vm (ip + 3)
      pushClosure vm constIndex numFree
    else if op = OpGetFree then
      let freeIndex := readUint8 ins (pc + 1)
      let vm := setIp vm (ip + 1)
      pushVM vm ((currentFrame vm).clFree.getD freeIndex nullObj)
    else if op = OpCurrentClosure then
      pushVM vm (closureObj (currentFrame vm).clFn (currentFrame vm).clFree)
    else if op = OpWhile then
      let pos := readUint16 ins (pc + 1)
      let vm := setIp vm (ip + 2)
      let (condition, vm) := popVM vm
      let vm := if isTruthy condition then vm else setIp vm ((pos : Int) - 1)
      .ok (setIp vm ((pos : Int) - 1))
    else
      .ok vm

/-! ## Specification-side definitions

The definitions in this section are *not* translations of the source:
they restate, in independent terms, what the spec sentences promise, so
that the claim theorems can compare the embedded code against them. -/

/-- Host 64-bit signed-integer semantics, as the spec states it: exact
integer arithmetic wrapped into `int64`, with division truncating toward
zero (`Int.tdiv`) and remainder taking the dividend's sign
(`Int.tmod`). -/
def hostInt64 (op : Nat) (a b : Int) : Int :=
  if op = OpAdd then wrap64 (a + b)
  else if op = OpSub then wrap64 (a - b)
  else if op = OpMul then wrap64 (a * b)
  else if op = OpDiv then wrap64 (a.tdiv b)
  else if op = OpMod then wrap64 (a.tmod b)
  else 0

/-- Reinterpretation of an `int64` value as an unsigned 64-bit value, as
the spec states it: nonnegative values unchanged, negative values offset
by `2^64`. -/
def uint64OfInt (v : Int) : Nat := (if 0 ≤ v then v else v + 2 ^ 64).toNat

/-- The latest key/value pair of a pair list whose key projects to the
given `DictKey` (pairs listed in stack order, so later pairs win). -/
def lastKeyed (k : DictKey) : List (Obj × Obj) → Option (Obj × Obj)
  | [] => none
  | q :: rest =>
    match lastKeyed k rest with
    | some r => some r
    | none => if dictKeyOf q.1 = some k then some q else none

/-! ## Concrete fixtures for witness theorems -/

/-- A freshly allocated operand stack: 2048 zero-valued slots. -/
def zeroStack : List Obj := List.replicate StackSize nullObj

/-- A stack whose two bottom slots hold the integers 7 and 2. -/
def intStack : List Obj := (zeroStack.set 0 (intObj 7)).set 1 (intObj 2)

/-- A VM about to operate on the integers 7 (left) and 2 (right). -/
def intVM : VM := ⟨[], intStack, 2, [], []⟩

/-- A stack whose two bottom slots hold the strings "a" and "b". -/
def strStack : List Obj := (zeroStack.set 0 (strObj "a")).set 1 (strObj "b")

/-- A VM about to compare the strings "a" (left) and "b" (right). -/
def strVM : VM := ⟨[], strStack, 2, [], []⟩

/-- An idle VM with an empty value area (for handler witnesses that only
push). -/
def idleVM : VM := ⟨[], zeroStack, 0, [], []⟩

/-- A one-parameter, one-local callee whose body immediately returns its
argument. -/
def calleeFn : CompiledFunction := ⟨[OpGetLocal, 0, OpReturnValue], 1, 1⟩

/-- A main program that calls `calleeFn` with one argument. -/
def mainFn : CompiledFunction := ⟨[OpCall, 1], 0, 0⟩

/-- The operand stack at the moment of the call: the callee closure
below its single argument. -/
def callStack : List Obj := (zeroStack.set 0 (closureObj calleeFn [])).set 1 (intObj 5)

/-- The VM at the moment of the `OpCall` (sp = 2, one live frame). -/
def callVM : VM := ⟨[], callStack, 2, [], [⟨mainFn, [], -1, 0⟩]⟩

/-- The callee's VM state at the moment of its `OpReturnValue`
(base pointer 1 as recorded by the call, sp = base + one local). -/
def retVM : VM := ⟨[], callStack, 2, [], [⟨calleeFn, [], 1, 1⟩, ⟨mainFn, [], 1, 0⟩]⟩

/-- A program consisting of a single `OpWhile` with target 7. -/
def whileFn : CompiledFunction := ⟨[OpWhile, 0, 7], 0, 0⟩

/-- A VM about to execute `whileFn` with a false condition on the
stack (slot 0 holds `Null`, which is falsy). -/
def whileVM : VM := ⟨[], zeroStack, 1, [], [⟨whileFn, [], -1, 0⟩]⟩

/-- A VM whose stack holds a `first` builtin under an empty array —
the state just before `callBuiltin` for `first([])`. -/
def builtinCallVM : VM :=
  ⟨[], (zeroStack.set 0 (builtinObj 0)).set 1 (arrayObj []), 2, [], []⟩

/-- Four stack slots encoding the dict literal `{1: 10, 1: 20}`. -/
def dupKeyStack : List Obj := [intObj 1, intObj 10, intObj 1, intObj 20]

/-- A two-parameter callee used to demonstrate the arity error. -/
def twoParamFn : CompiledFunction := ⟨[OpReturn], 2, 2⟩

/-! ## Basic lemmas -/

theorem pushVM_ok (vm : VM) (o : Obj) (h : vm.sp < StackSize) :
    pushVM vm o = .ok (pushedVM vm o) := by
  simp [pushVM, pushedVM, Nat.not_le.mpr h]

theorem slicePairs_step (stack : List Obj) (i endIndex : Nat) (h : i < endIndex) :
    slicePairs stack i endIndex =
      (stack.getD i nullObj, stack.getD (i + 1) nullObj) :: slicePairs stack (i + 2) endIndex := by
  rw [slicePairs]
  simp [h]

theorem slicePairs_stop (stack : List Obj) (i endIndex : Nat) (h : ¬ i < endIndex) :
    slicePairs stack i endIndex = [] := by
  rw [slicePairs]
  simp [h]

/-!
## Claim theorems
-/

/-- C6: for every `OpCall` whose callee is a Closure, `callClosure`
rejects an argument count different from the function's parameter count
with exactly the error "wrong number of arguments: want=N, got=M" and
pushes no frame (the erroring path returns before any state change);
with a matching count it pushes a frame with
`base-pointer = sp − nargs` and sets `sp = base-pointer + num-locals`. -/
theorem claim6_callClosure_arity_and_frame (vm : VM) (fn : CompiledFunction)
    (free : List Obj) (numArgs : Nat) :
    (numArgs ≠ fn.numParameters →
      callClosure vm fn free numArgs =
        .error (.runtimeErr ("wrong number of arguments: want="
          ++ toString fn.numParameters ++ ", got=" ++ toString numArgs))) ∧
    (numArgs = fn.numParameters → vm.frames.length < MaxFrames →
      callClosure vm fn free numArgs =
        .ok { vm with
          frames := NewFrame fn free (vm.sp - numArgs) :: vm.frames,
          sp := (vm.sp - numArgs) + fn.numLocals }) := by
  constructor
  · intro h
    simp [callClosure, h]
  · intro h hroom
    simp [callClosure, h, pushFrame, NewFrame, Nat.not_le.mpr hroom]

/-- Witness for C6 at `twoParamFn`: calling with 1 argument errors with
the exact message, calling with 2 arguments from `sp = 2` pushes a frame
based at 0 and reserves the two local slots. -/
theorem claim6_callClosure_arity_and_frame_witness :
    (1 ≠ twoParamFn.numParameters ∧
      callClosure ⟨[], [], 2, [], []⟩ twoParamFn [] 1 =
        .error (.runtimeErr ("wrong number of arguments: want="
          ++ toString twoParamFn.numParameters ++ ", got=" ++ toString 1))) ∧
    (2 = twoParamFn.numParameters ∧ (⟨[], [], 2, [], []⟩ : VM).frames.length < MaxFrames ∧
      callClosure ⟨[], [], 2, [], []⟩ twoParamFn [] 2 =
        .ok { (⟨[], [], 2, [], []⟩ : VM) with
          frames := NewFrame twoParamFn [] 0 :: [],
          sp := 0 + twoParamFn.numLocals }) :=
  ⟨⟨by decide,
    (claim6_callClosure_arity_and_frame ⟨[], [], 2, [], []⟩ twoParamFn [] 1).1 (by decide)⟩,
   ⟨rfl, by decide,
    (claim6_callClosure_arity_and_frame ⟨[], [], 2, [], []⟩ twoParamFn [] 2).2 rfl (by decide)⟩⟩

/-- C2: for Integer operands `a` (left, at `sp−2`) and `b` (right, at
`sp−1`) and any of the five arithmetic opcodes, the binary-operation
handler pops both and pushes the Integer the host's 64-bit signed
arithmetic produces (`hostInt64`: wrapping add/sub/mul, division
truncating toward zero, remainder with the dividend's sign).  For `÷`
and `%` the divisor must be nonzero — a zero divisor is the host's
divide-by-zero trap, which the source does not intercept. -/
theorem claim2_integer_arithmetic_host64 (vm : VM) (op : Nat) (a b : Int)
    (hsp2 : 2 ≤ vm.sp) (hsp : vm.sp ≤ StackSize)
    (hb : vm.stack.getD (vm.sp - 1) nullObj = intObj b)
    (ha : vm.stack.getD (vm.sp - 2) nullObj = intObj a)
    (hop : op = OpAdd ∨ op = OpSub ∨ op = OpMul ∨ op = OpDiv ∨ op = OpMod)
    (hdiv : op = OpDiv ∨ op = OpMod → b ≠ 0) :
    executeBinaryOperation vm op =
      .ok (pushedVM (droppedVM vm 2) (intObj (hostInt64 op a b))) := by
  have ha' : vm.stack.getD (vm.sp - 1 - 1) nullObj = intObj a := by
    rw [show vm.sp - 1 - 1 = vm.sp - 2 by omega]
    exact ha
  have hpush : vm.sp - 1 - 1 < StackSize := by
    unfold StackSize at hsp ⊢
    omega
  have hdd : droppedVM vm 2 = { vm with sp := vm.sp - 1 - 1 } := by
    simp [droppedVM]
    omega
  rw [hdd]
  simp only [executeBinaryOperation, popVM, hb, ha']
  rcases hop with h | h | h | h | h <;> subst h
  · simp only [executeBinaryIntegerOperation, hostInt64, OpAdd, if_pos rfl]
    exact pushVM_ok _ _ hpush
  · simp [executeBinaryIntegerOperation, hostInt64, OpAdd, OpSub]
    exact pushVM_ok _ _ hpush
  · simp [executeBinaryIntegerOperation, hostInt64, OpAdd, OpSub, OpMul]
    exact pushVM_ok _ _ hpush
  · have hb0 : b ≠ 0 := hdiv (Or.inl rfl)
    simp [executeBinaryIntegerOperation, hostInt64, OpAdd, OpSub, OpMul, OpDiv, hb0]
    exact pushVM_ok _ _ hpush
  · have hb0 : b ≠ 0 := hdiv (Or.inr rfl)
    simp [executeBinaryIntegerOperation, hostInt64, OpAdd, OpSub, OpMul, OpDiv, OpMod, hb0]
    exact pushVM_ok _ _ hpush

/-- Witness for C2 at `intVM` (7 ÷ 2): the division opcode pushes the
truncated quotient 3. -/
theorem claim2_integer_arithmetic_host64_witness :
    2 ≤ intVM.sp ∧ intVM.sp ≤ StackSize ∧
    intVM.stack.getD (intVM.sp - 1) nullObj = intObj 2 ∧
    intVM.stack.getD (intVM.sp - 2) nullObj = intObj 7 ∧
    executeBinaryOperation intVM OpDiv =
      .ok (pushedVM (droppedVM intVM 2) (intObj (hostInt64 OpDiv 7 2))) :=
  ⟨by decide, by decide, rfl, rfl,
    claim2_integer_arithmetic_host64 intVM OpDiv 7 2 (by decide) (by decide) rfl rfl
      (by simp [OpDiv, OpAdd, OpSub, OpMul, OpMod]) (fun _ => by decide)⟩

/-- C3 (amended): for two String operands the comparison dispatch defines
*only* `==` (pushing the Boolean equality of the two strings); every
other comparison opcode on two Strings — *including* `!=` — fails with
the "unknown string operator" runtime error, because
`executeStringComparison` early-returns on everything except
`OpEqual`. -/
theorem claim3_string_comparison_only_equal (vm : VM) (op : Nat) (a b : String)
    (hsp2 : 2 ≤ vm.sp) (hsp : vm.sp ≤ StackSize)
    (hb : vm.stack.getD (vm.sp - 1) nullObj = strObj b)
    (ha : vm.stack.getD (vm.sp - 2) nullObj = strObj a) :
    (op = OpEqual →
      executeComparison vm op =
        .ok (pushedVM (droppedVM vm 2) (nativeBoolToBooleanObject (a = b)))) ∧
    (op = OpNotEqual ∨ op = OpGreaterThan ∨ op = OpLessThan
        ∨ op = OpGreaterThanOrEqual ∨ op = OpLessThanOrEqual →
      executeComparison vm op =
        .error (.runtimeErr ("unknown string operator: " ++ toString op))) := by
  have ha' : vm.stack.getD (vm.sp - 1 - 1) nullObj = strObj a := by
    rw [show vm.sp - 1 - 1 = vm.sp - 2 by omega]
    exact ha
  have hpush : vm.sp - 1 - 1 < StackSize := by
    unfold StackSize at hsp ⊢
    omega
  have hdd : droppedVM vm 2 = { vm with sp := vm.sp - 1 - 1 } := by
    simp [droppedVM]
    omega
  constructor
  · intro h
    subst h
    rw [hdd]
    simp only [executeComparison, popVM, hb, ha']
    simp [executeStringComparison]
    exact pushVM_ok _ _ hpush
  · intro h
    simp only [executeComparison, popVM, hb, ha']
    rcases h with h | h | h | h | h <;> subst h <;>
      simp [executeStringComparison, OpEqual, OpNotEqual, OpGreaterThan, OpLessThan,
        OpGreaterThanOrEqual, OpLessThanOrEqual]

/-- Witness for C3 (amended) at `strVM` ("a" vs "b"): `==` pushes the
Boolean false, `<` errors. -/
theorem claim3_string_comparison_only_equal_witness :
    2 ≤ strVM.sp ∧ strVM.sp ≤ StackSize ∧
    strVM.stack.getD (strVM.sp - 1) nullObj = strObj "b" ∧
    strVM.stack.getD (strVM.sp - 2) nullObj = strObj "a" ∧
    executeComparison strVM OpEqual =
      .ok (pushedVM (droppedVM strVM 2) (nativeBoolToBooleanObject ("a" = "b"))) ∧
    executeComparison strVM OpLessThan =
      .error (.runtimeErr ("unknown string operator: " ++ toString OpLessThan)) :=
  ⟨by decide, by decide, rfl, rfl,
    (claim3_string_comparison_only_equal strVM OpEqual "a" "b"
      (by decide) (by decide) rfl rfl).1 rfl,
    (claim3_string_comparison_only_equal strVM OpLessThan "a" "b"
      (by decide) (by decide) rfl rfl).2 (by simp [OpNotEqual, OpGreaterThan, OpLessThan])⟩

/-- Counterexample for C3 as stated: on the String operands "a" and "b",
the `!=` comparison opcode does not push a Boolean — it fails with the
"unknown string operator" runtime error. -/
theorem claim3_string_notEqual_errors :
    executeComparison strVM OpNotEqual =
      .error (.runtimeErr ("unknown string operator: 9")) := rfl

/-- C4: the `OpIndex` handler, case by case — an Array with an
in-range Integer index pushes the element; an out-of-range Integer index
pushes `Null` without error; a Dict with a hashable key pushes the
stored value when its projection is bound and `Null` when it is not; a
Dict with an unhashable key errors; every other container/index pairing
errors with "index operator not supported". -/
theorem claim4_index_dispatch (vm : VM) (hsp : vm.sp < StackSize) :
    (∀ (elements : List Obj) (i : Int), 0 ≤ i → i ≤ (elements.length : Int) - 1 →
      executeIndexExpression vm (arrayObj elements) (intObj i) =
        .ok (pushedVM vm (elements.getD i.toNat nullObj))) ∧
    (∀ (elements : List Obj) (i : Int), i < 0 ∨ (elements.length : Int) - 1 < i →
      executeIndexExpression vm (arrayObj elements) (intObj i) =
        .ok (pushedVM vm nullObj)) ∧
    (∀ (pairs : List (DictKey × Obj × Obj)) (index : Obj) (k : DictKey) (pr : Obj × Obj),
      dictKeyOf index = some k → dictLookup k pairs = some pr →
      executeIndexExpression vm (dictObj pairs) index = .ok (pushedVM vm pr.2)) ∧
    (∀ (pairs : List (DictKey × Obj × Obj)) (index : Obj) (k : DictKey),
      dictKeyOf index = some k → dictLookup k pairs = none →
      executeIndexExpression vm (dictObj pairs) index = .ok (pushedVM vm nullObj)) ∧
    (∀ (pairs : List (DictKey × Obj × Obj)) (index : Obj),
      dictKeyOf index = none →
      executeIndexExpression vm (dictObj pairs) index =
        .error (.runtimeErr ("unusable as hash key: " ++ typeOf index))) ∧
    (∀ left index : Obj,
      (typeOf left ≠ ARRAY_OBJ ∨ typeOf index ≠ INTEGER_OBJ) → typeOf left ≠ DICT_OBJ →
      executeIndexExpression vm left index =
        .error (.runtimeErr ("index operator not supported: " ++ typeOf left))) := by
  refine ⟨?_, ?_, ?_, ?_, ?_, ?_⟩
  · intro elements i h0 hlen
    have hnot : ¬ (i < 0 ∨ (elements.length : Int) - 1 < i) := by omega
    simp only [executeIndexExpression, executeArrayIndex]
    rw [if_neg (by omega)]
    exact pushVM_ok _ _ hsp
  · intro elements i hout
    simp only [executeIndexExpression, executeArrayIndex]
    rw [if_pos (by omega)]
    exact pushVM_ok _ _ hsp
  · intro pairs index k pr hk hfound
    simp only [executeIndexExpression, executeDictIndex, hk, hfound]
    exact pushVM_ok _ _ hsp
  · intro pairs index k hk hmiss
    simp only [executeIndexExpression, executeDictIndex, hk, hmiss]
    exact pushVM_ok _ _ hsp
  · intro pairs index hk
    simp only [executeIndexExpression, executeDictIndex, hk]
  · intro left index hnotarr hnotdict
    cases left <;> cases index <;>
      simp_all [executeIndexExpression, typeOf, INTEGER_OBJ, BOOLEAN_OBJ, NULL_OBJ,
        STRING_OBJ, ARRAY_OBJ, DICT_OBJ, COMPILED_FUNCTION_OBJ, CLOSURE_OBJ,
        BUILTIN_OBJ, ERROR_OBJ]

/-- Witness for C4 at `idleVM`: element fetch from `[10, 20]` at index 1,
`Null` at index 5, a dict hit and a dict miss on `{1 ↦ 30}`, the
unhashable-key error for an array key, and the unsupported-combination
error for indexing an integer. -/
theorem claim4_index_dispatch_witness :
    idleVM.sp < StackSize ∧
    executeIndexExpression idleVM (arrayObj [intObj 10, intObj 20]) (intObj 1) =
      .ok (pushedVM idleVM ([intObj 10, intObj 20].getD (1 : Int).toNat nullObj)) ∧
    executeIndexExpression idleVM (arrayObj [intObj 10, intObj 20]) (intObj 5) =
      .ok (pushedVM idleVM nullObj) ∧
    executeIndexExpression idleVM (dictObj [(⟨INTEGER_OBJ, 1⟩, intObj 1, intObj 30)])
        (intObj 1) = .ok (pushedVM idleVM (intObj 1, intObj 30).2) ∧
    executeIndexExpression idleVM (dictObj [(⟨INTEGER_OBJ, 1⟩, intObj 1, intObj 30)])
        (intObj 2) = .ok (pushedVM idleVM nullObj) ∧
    executeIndexExpression idleVM (dictObj [(⟨INTEGER_OBJ, 1⟩, intObj 1, intObj 30)])
        (arrayObj []) =
      .error (.runtimeErr ("unusable as hash key: " ++ typeOf (arrayObj []))) ∧
    executeIndexExpression idleVM (intObj 3) (intObj 0) =
      .error (.runtimeErr ("index operator not supported: " ++ typeOf (intObj 3))) :=
  ⟨by decide,
   (claim4_index_dispatch idleVM (by decide)).1 [intObj 10, intObj 20] 1
     (by decide) (by decide),
   (claim4_index_dispatch idleVM (by decide)).2.1 [intObj 10, intObj 20] 5
     (Or.inr (by decide)),
   (claim4_index_dispatch idleVM (by decide)).2.2.1 [(⟨INTEGER_OBJ, 1⟩, intObj 1, intObj 30)]
     (intObj 1) ⟨INTEGER_OBJ, 1⟩ (intObj 1, intObj 30) rfl rfl,
   (claim4_index_dispatch idleVM (by decide)).2.2.2.1 [(⟨INTEGER_OBJ, 1⟩, intObj 1, intObj 30)]
     (intObj 2) ⟨INTEGER_OBJ, 2⟩ rfl rfl,
   (claim4_index_dispatch idleVM (by decide)).2.2.2.2.1 [(⟨INTEGER_OBJ, 1⟩, intObj 1, intObj 30)]
     (arrayObj []) rfl,
   (claim4_index_dispatch idleVM (by decide)).2.2.2.2.2 (intObj 3) (intObj 0)
     (Or.inl (by decide)) (by decide)⟩

/-- If any key of the pair list is unhashable, the dict-construction
loop errors (with the message of the first unhashable key it meets). -/
theorem dictEntries_error_of_unhashable (ps : List (Obj × Obj)) :
    ∀ acc, (∃ q ∈ ps, dictKeyOf q.1 = none) →
      ∃ m, dictEntries ps acc = .error (.runtimeErr m) := by
  induction ps with
  | nil =>
    intro acc h
    simp at h
  | cons q rest ih =>
    intro acc h
    cases hk : dictKeyOf q.1 with
    | none =>
      exact ⟨"unusable as hash key: " ++ typeOf q.1, by
        obtain ⟨a, b⟩ := q
        simp only [dictEntries]
        simp only [dictKeyOf] at hk ⊢
        rw [hk]⟩
    | some dk =>
      obtain ⟨r, hr, hrnone⟩ := h
      rcases List.mem_cons.mp hr with rfl | hmem
      · rw [hk] at hrnone
        exact absurd hrnone (by simp)
      · obtain ⟨m, hm⟩ := ih ((dk, q.1, q.2) :: acc) ⟨r, hmem, hrnone⟩
        refine ⟨m, ?_⟩
        obtain ⟨a, b⟩ := q
        simp only [dictEntries]
        simp only [dictKeyOf] at hk ⊢
        rw [hk]
        exact hm

/-- C8: the `DictKey` projection maps an Integer to `(INTEGER, value
reinterpreted as unsigned 64-bit)`, a Boolean to `(BOOLEAN, 1/0)`, and a
String to `(STRING, FNV-1a 64 of its UTF-8 bytes)`; no other value kind
projects to a `DictKey`; and a dict built over any unhashable key is a
runtime error. -/
theorem claim8_dictKey_projection :
    (∀ v : Int, -(2 ^ 63) ≤ v → v < 2 ^ 63 →
      dictKeyOf (intObj v) = some ⟨INTEGER_OBJ, uint64OfInt v⟩) ∧
    (∀ b : Bool, dictKeyOf (boolObj b) = some ⟨BOOLEAN_OBJ, if b then 1 else 0⟩) ∧
    (∀ s : String, dictKeyOf (strObj s) = some ⟨STRING_OBJ, fnv1a64 (strBytes s)⟩) ∧
    (∀ o : Obj, dictKeyOf o = none ↔
      typeOf o ≠ INTEGER_OBJ ∧ typeOf o ≠ BOOLEAN_OBJ ∧ typeOf o ≠ STRING_OBJ) ∧
    (∀ (stack : List Obj) (startIndex endIndex : Nat),
      (∃ q ∈ slicePairs stack startIndex endIndex, dictKeyOf q.1 = none) →
      ∃ m, buildDict stack startIndex endIndex = .error (.runtimeErr m)) := by
  refine ⟨?_, ?_, ?_, ?_, ?_⟩
  · intro v h1 h2
    simp only [dictKeyOf, uint64OfInt, Option.some_inj, DictKey.mk.injEq, true_and]
    congr 1
    omega
  · intro b
    rfl
  · intro s
    rfl
  · intro o
    cases o <;>
      simp [dictKeyOf, typeOf, INTEGER_OBJ, BOOLEAN_OBJ, NULL_OBJ, STRING_OBJ,
        ARRAY_OBJ, DICT_OBJ, COMPILED_FUNCTION_OBJ, CLOSURE_OBJ, BUILTIN_OBJ, ERROR_OBJ]
  · intro stack startIndex endIndex h
    obtain ⟨m, hm⟩ := dictEntries_error_of_unhashable _ [] h
    exact ⟨m, by simp only [buildDict, hm]⟩

/-- Witness for C8: the negative integer −1 reinterprets to `2^64 − 1`,
and building a dict whose key is an array errors. -/
theorem claim8_dictKey_projection_witness :
    (-(2 ^ 63) ≤ (-1 : Int) ∧ (-1 : Int) < 2 ^ 63 ∧
      dictKeyOf (intObj (-1)) = some ⟨INTEGER_OBJ, uint64OfInt (-1)⟩) ∧
    dictKeyOf (boolObj true) = some ⟨BOOLEAN_OBJ, if true then 1 else 0⟩ ∧
    dictKeyOf (strObj "a") = some ⟨STRING_OBJ, fnv1a64 (strBytes "a")⟩ ∧
    (dictKeyOf (arrayObj []) = none ↔
      typeOf (arrayObj []) ≠ INTEGER_OBJ ∧ typeOf (arrayObj []) ≠ BOOLEAN_OBJ ∧
        typeOf (arrayObj []) ≠ STRING_OBJ) ∧
    ((∃ q ∈ slicePairs [arrayObj [], intObj 0] 0 2, dictKeyOf q.1 = none) ∧
      ∃ m, buildDict [arrayObj [], intObj 0] 0 2 = .error (.runtimeErr m)) :=
  ⟨⟨by decide, by decide,
    claim8_dictKey_projection.1 (-1) (by decide) (by decide)⟩,
   claim8_dictKey_projection.2.1 true,
   claim8_dictKey_projection.2.2.1 "a",
   claim8_dictKey_projection.2.2.2.1 (arrayObj []),
   ⟨⟨(arrayObj [], intObj 0), by
      constructor
      · show (arrayObj [], intObj 0) ∈ slicePairs [arrayObj [], intObj 0] 0 2
        rw [slicePairs_step _ _ _ (by decide), slicePairs_stop _ _ _ (by decide)]
        simp
      · rfl⟩,
    claim8_dictKey_projection.2.2.2.2 [arrayObj [], intObj 0] 0 2
      ⟨(arrayObj [], intObj 0), by
        constructor
        · show (arrayObj [], intObj 0) ∈ slicePairs [arrayObj [], intObj 0] 0 2
          rw [slicePairs_step _ _ _ (by decide), slicePairs_stop _ _ _ (by decide)]
          simp
        · rfl⟩⟩⟩

/-- When every key of the pair list is hashable, the dict-construction
loop succeeds, and a lookup returns the *latest* pair bound to the key —
falling back to the accumulator when the list never binds it. -/
theorem dictEntries_lookup (ps : List (Obj × Obj)) :
    ∀ acc, (∀ q ∈ ps, (dictKeyOf q.1).isSome) →
      ∃ es, dictEntries ps acc = .ok es ∧
        ∀ k : DictKey, dictLookup k es =
          match lastKeyed k ps with
          | some q => some q
          | none => dictLookup k acc := by
  induction ps with
  | nil =>
    intro acc _
    exact ⟨acc, rfl, fun k => by simp [lastKeyed]⟩
  | cons q rest ih =>
    intro acc hall
    have hq : (dictKeyOf q.1).isSome := hall q (List.mem_cons_self q rest)
    obtain ⟨dk, hdk⟩ := Option.isSome_iff_exists.mp hq
    have hrest : ∀ r ∈ rest, (dictKeyOf r.1).isSome :=
      fun r hr => hall r (List.mem_cons_of_mem q hr)
    obtain ⟨es, hes, hlook⟩ := ih ((dk, q.1, q.2) :: acc) hrest
    refine ⟨es, ?_, ?_⟩
    · obtain ⟨a, b⟩ := q
      simp only [dictKeyOf] at hdk ⊢
      simp only [dictEntries]
      simp only [dictKeyOf]
      rw [hdk]
      exact hes
    · intro k
      rw [hlook k]
      cases hrk : lastKeyed k rest with
      | some r => simp [lastKeyed, hrk]
      | none =>
        simp only [lastKeyed, hrk]
        by_cases hke : dictKeyOf q.1 = some k
        · have : dk = k := by
            rw [hdk] at hke
            exact Option.some_inj.mp hke
          subst this
          simp [hke, dictLookup]
        · have hne : dk ≠ k := by
            intro hcontra
            subst hcontra
            exact hke hdk
          simp [hke, dictLookup, hne]

/-- C9: an `OpDict` whose popped key/value pairs all have hashable keys
succeeds even when several keys share a `DictKey` projection, and the
built dict maps such a projection to the pair appearing *latest* in
stack (source) order: the later binding overwrites the earlier one. -/
theorem claim9_buildDict_latest_binding_wins (stack : List Obj)
    (startIndex endIndex : Nat) (k : DictKey) (p : Obj × Obj)
    (hall : (slicePairs stack startIndex endIndex).all
      (fun q => (dictKeyOf q.1).isSome) = true)
    (hlast : lastKeyed k (slicePairs stack startIndex endIndex) = some p) :
    ∃ entries, buildDict stack startIndex endIndex = .ok (dictObj entries) ∧
      dictLookup k entries = some p := by
  obtain ⟨es, hes, hlook⟩ :=
    dictEntries_lookup (slicePairs stack startIndex endIndex) []
      (fun q hq => List.all_eq_true.mp hall q hq)
  refine ⟨es, by simp only [buildDict, hes], ?_⟩
  rw [hlook k, hlast]

/-- Witness for C9 on the stack slots of the literal `{1: 10, 1: 20}`:
both keys project to `(INTEGER, 1)` and the lookup returns the later
pair `(1, 20)`. -/
theorem claim9_buildDict_latest_binding_wins_witness :
    (slicePairs dupKeyStack 0 4).all (fun q => (dictKeyOf q.1).isSome) = true ∧
    lastKeyed ⟨INTEGER_OBJ, 1⟩ (slicePairs dupKeyStack 0 4) =
      some (intObj 1, intObj 20) ∧
    ∃ entries, buildDict dupKeyStack 0 4 = .ok (dictObj entries) ∧
      dictLookup ⟨INTEGER_OBJ, 1⟩ entries = some (intObj 1, intObj 20) := by
  have hsl : slicePairs dupKeyStack 0 4 =
      [(intObj 1, intObj 10), (intObj 1, intObj 20)] := by
    rw [slicePairs_step _ _ _ (by decide), slicePairs_step _ _ _ (by decide),
      slicePairs_stop _ _ _ (by decide)]
    rfl
  have h1 : (slicePairs dupKeyStack 0 4).all (fun q => (dictKeyOf q.1).isSome) = true := by
    rw [hsl]
    rfl
  have h2 : lastKeyed ⟨INTEGER_OBJ, 1⟩ (slicePairs dupKeyStack 0 4) =
      some (intObj 1, intObj 20) := by
    rw [hsl]
    rfl
  exact ⟨h1, h2, claim9_buildDict_latest_binding_wins dupKeyStack 0 4 _ _ h1 h2⟩

/-- C10: `first`, `last`, `allButFirst`, `min` and `max` on an empty
Array (correct arity and type) return Go `nil` — no value and no error
value — and `callBuiltin` then pushes `Null`, so the overall call
expression evaluates to `Null`. -/
theorem claim10_empty_array_builtins_null :
    (ArrayFirstBuiltin [arrayObj []] = .ok none ∧
     ArrayLastBuiltin [arrayObj []] = .ok none ∧
     AllButFirstBuiltin [arrayObj []] = .ok none ∧
     MinBuiltin [arrayObj []] = .ok none ∧
     MaxBuiltin [arrayObj []] = .ok none) ∧
    (∀ (vm : VM) (fn : List Obj → BuiltinResult) (numArgs : Nat),
      vm.sp ≤ StackSize →
      fn (stackSlice vm.stack (vm.sp - numArgs) vm.sp) = .ok none →
      callBuiltin vm fn numArgs = .ok (pushedVM (droppedVM vm (numArgs + 1)) nullObj)) := by
  refine ⟨⟨rfl, rfl, rfl, rfl, rfl⟩, ?_⟩
  intro vm fn numArgs hsp hres
  have hdd : droppedVM vm (numArgs + 1) = { vm with sp := vm.sp - numArgs - 1 } := by
    simp [droppedVM]
    omega
  have hpush : vm.sp - numArgs - 1 < StackSize := by
    unfold StackSize at hsp ⊢
    omega
  rw [hdd]
  simp only [callBuiltin, hres]
  exact pushVM_ok _ _ hpush

/-- Witness for C10 at `builtinCallVM` (`first([])` with the builtin and
its argument on the stack): the builtin yields no value and the VM
pushes `Null`. -/
theorem claim10_empty_array_builtins_null_witness :
    ArrayFirstBuiltin
      (stackSlice builtinCallVM.stack (builtinCallVM.sp - 1) builtinCallVM.sp) =
      .ok none ∧
    builtinCallVM.sp ≤ StackSize ∧
    callBuiltin builtinCallVM ArrayFirstBuiltin 1 =
      .ok (pushedVM (droppedVM builtinCallVM (1 + 1)) nullObj) :=
  ⟨rfl, by decide,
    claim10_empty_array_builtins_null.2 builtinCallVM ArrayFirstBuiltin 1 (by decide) rfl⟩

/-- C7 fails on the code: `organize` called with zero arguments reads
`args[0]` before any arity check (a Go index-out-of-range panic, not a
returned error value), and `max`/`min` on an array containing a
non-Integer element hit an unchecked type assertion inside the
comparison loop (a Go interface-conversion panic).  This theorem
evaluates the embedded source at those failing inputs; the `.error`
outcome is the modelled panic, not an error-kind value. -/
theorem claim7_builtins_panic_on_bad_input :
    OrganizeBuiltins [] =
      .error ("runtime error: index out of range [0] with length 0") ∧
    MaxBuiltin [arrayObj [intObj 1, boolObj true]] =
      .error ("interface conversion: object.Object is not *object.Integer: "
        ++ BOOLEAN_OBJ) ∧
    MinBuiltin [arrayObj [intObj 1, boolObj true]] =
      .error ("interface conversion: object.Object is not *object.Integer: "
        ++ BOOLEAN_OBJ) :=
  ⟨rfl, rfl, rfl⟩

/-- C5: executing the `OpWhile` instruction (opcode at position `pc`,
16-bit target operand) always leaves the current frame's ip at
`target − 1` — the handler assigns `ip = target − 1` unconditionally
after the conditional assignment, so the popped condition's truthiness
(unconstrained here: the stack is arbitrary) does not matter — and
consumes exactly the popped condition slot. -/
theorem claim5_opWhile_always_jumps (c st g : List Obj) (sp : Nat) (fr : Frame)
    (rest : List Frame) (pc : Nat)
    (hip : fr.ip = (pc : Int) - 1)
    (hop : fr.clFn.instructions.getD pc 0 = OpWhile) :
    ∃ vm', stepVM ⟨c, st, sp, g, fr :: rest⟩ = .ok vm' ∧
      (currentFrame vm').ip =
        (readUint16 fr.clFn.instructions (pc + 1) : Int) - 1 ∧
      vm'.sp = sp - 1 := by
  have hip1 : fr.ip + 1 = (pc : Int) := by omega
  have htn : (fr.ip + 1).toNat = pc := by omega
  simp only [stepVM, hip1, htn, Int.toNat_natCast, hop, OpWhile, OpConstant, OpAdd,
    OpSub, OpMul, OpDiv, OpMod, OpAnd, OpOr, OpEqual, OpNotEqual, OpGreaterThan,
    OpLessThan, OpGreaterThanOrEqual, OpLessThanOrEqual, OpTrue, OpFalse, OpBang,
    OpMinus, OpPop, OpJump, OpJumpNotTruthy, OpNull, OpSetGlobal, OpGetGlobal,
    OpArray, OpDict, OpIndex, OpCall, OpReturnValue, OpReturn, OpSetLocal,
    OpGetLocal, OpGetBuiltin, OpClosure, OpGetFree, OpCurrentClosure]
  norm_num
  all_goals split <;> simp [setIp, currentFrame, popVM]

/-- Witness for C5 at `whileVM`: the popped condition is `Null` (falsy)
and the ip still lands at `target − 1 = 6`; the same jump happens for a
truthy condition by the theorem's indifference to the stack contents. -/
theorem claim5_opWhile_always_jumps_witness :
    whileVM.frames.headD (NewFrame ⟨[], 0, 0⟩ [] 0) = ⟨whileFn, [], -1, 0⟩ ∧
    (⟨whileFn, [], -1, 0⟩ : Frame).ip = ((0 : Nat) : Int) - 1 ∧
    (⟨whileFn, [], -1, 0⟩ : Frame).clFn.instructions.getD 0 0 = OpWhile ∧
    ∃ vm', stepVM ⟨[], zeroStack, 1, [], [⟨whileFn, [], -1, 0⟩]⟩ = .ok vm' ∧
      (currentFrame vm').ip =
        (readUint16 (⟨whileFn, [], -1, 0⟩ : Frame).clFn.instructions (0 + 1) : Int) - 1 ∧
      vm'.sp = 1 - 1 :=
  ⟨rfl, by decide, by decide,
   claim5_opWhile_always_jumps [] zeroStack [] 1 ⟨whileFn, [], -1, 0⟩ [] 0
     (by decide) (by decide)⟩

/-- The `OpCall` dispatch case on a Closure callee, in full: the state
after the step has a new frame based at `sp − nargs` and
`sp = base + numLocals`. -/
theorem stepVM_opCall_closure (c st g : List Obj) (sp : Nat) (fr : Frame)
    (rest : List Frame) (pc nargs : Nat) (fn : CompiledFunction) (free : List Obj)
    (hip : fr.ip = (pc : Int) - 1)
    (hop : fr.clFn.instructions.getD pc 0 = OpCall)
    (hargs : fr.clFn.instructions.getD (pc + 1) 0 = nargs)
    (hcallee : st.getD (sp - 1 - nargs) nullObj = closureObj fn free)
    (harity : nargs = fn.numParameters)
    (hroom : rest.length + 1 < MaxFrames) :
    stepVM ⟨c, st, sp, g, fr :: rest⟩ =
      .ok ⟨c, st, (sp - nargs) + fn.numLocals, g,
        NewFrame fn free (sp - nargs) :: { fr with ip := (pc : Int) + 1 } :: rest⟩ := by
  subst harity
  have hip1 : fr.ip + 1 = (pc : Int) := by omega
  have htn : (fr.ip + 1).toNat = pc := by omega
  simp only [stepVM, hip1, htn, Int.toNat_natCast, hop, OpWhile, OpConstant, OpAdd,
    OpSub, OpMul, OpDiv, OpMod, OpAnd, OpOr, OpEqual, OpNotEqual, OpGreaterThan,
    OpLessThan, OpGreaterThanOrEqual, OpLessThanOrEqual, OpTrue, OpFalse, OpBang,
    OpMinus, OpPop, OpJump, OpJumpNotTruthy, OpNull, OpSetGlobal, OpGetGlobal,
    OpArray, OpDict, OpIndex, OpCall, OpReturnValue, OpReturn, OpSetLocal,
    OpGetLocal, OpGetBuiltin, OpClosure, OpGetFree, OpCurrentClosure]
  norm_num
  simp only [setIp, executeCall, readUint8, hargs, hcallee, callClosure,
    NewFrame, pushFrame, List.length_cons]
  simp [Nat.not_le.mpr hroom]

/-- The `OpReturnValue`/`OpReturn` dispatch cases: the step succeeds and
leaves `sp = base-pointer − 1` plus one for the pushed result, with the
frame popped. -/
theorem stepVM_return_sp (c st g : List Obj) (sp : Nat) (fr : Frame)
    (rest : List Frame) (pc : Nat)
    (hip : fr.ip = (pc : Int) - 1)
    (hop : fr.clFn.instructions.getD pc 0 = OpReturnValue
      ∨ fr.clFn.instructions.getD pc 0 = OpReturn)
    (hbp : fr.basePointer ≤ StackSize) :
    ∃ vm', stepVM ⟨c, st, sp, g, fr :: rest⟩ = .ok vm' ∧
      vm'.sp = fr.basePointer - 1 + 1 ∧ vm'.frames = rest := by
  have hip1 : fr.ip + 1 = (pc : Int) := by omega
  have htn : (fr.ip + 1).toNat = pc := by omega
  have hpush : fr.basePointer - 1 < StackSize := by
    unfold StackSize at hbp ⊢
    omega
  rcases hop with hop | hop <;>
  · simp only [stepVM, hip1, htn, Int.toNat_natCast, hop, OpWhile, OpConstant, OpAdd,
      OpSub, OpMul, OpDiv, OpMod, OpAnd, OpOr, OpEqual, OpNotEqual, OpGreaterThan,
      OpLessThan, OpGreaterThanOrEqual, OpLessThanOrEqual, OpTrue, OpFalse, OpBang,
      OpMinus, OpPop, OpJump, OpJumpNotTruthy, OpNull, OpSetGlobal, OpGetGlobal,
      OpArray, OpDict, OpIndex, OpCall, OpReturnValue, OpReturn, OpSetLocal,
      OpGetLocal, OpGetBuiltin, OpClosure, OpGetFree, OpCurrentClosure]
    norm_num
    simp only [popVM, pushVM, Nat.not_le.mpr hpush, if_false]
    exact ⟨_, rfl, rfl, rfl⟩

/-- C1: for a closure call with `nargs` arguments, the `OpCall` step
records `base-pointer = sp₀ − nargs` in the pushed frame, and the
matching `OpReturnValue` (or `OpReturn`) step — executed from any later
state whose innermost frame still carries that base pointer — leaves
`sp = sp₀ − nargs − 1 + 1`: the operand stack has shrunk by the `nargs`
arguments plus the callee slot, net of the single pushed return value. -/
theorem claim1_call_return_sp_discipline
    (c st g : List Obj) (sp : Nat) (fr : Frame) (rest : List Frame)
    (pc nargs : Nat) (fn : CompiledFunction) (free : List Obj)
    (c2 st2 g2 : List Obj) (sp2 : Nat) (fr2 : Frame) (rest2 : List Frame) (pc2 : Nat)
    (hip : fr.ip = (pc : Int) - 1)
    (hop : fr.clFn.instructions.getD pc 0 = OpCall)
    (hargs : fr.clFn.instructions.getD (pc + 1) 0 = nargs)
    (hcallee : st.getD (sp - 1 - nargs) nullObj = closureObj fn free)
    (harity : nargs = fn.numParameters)
    (hroom : rest.length + 1 < MaxFrames)
    (hsp : nargs + 1 ≤ sp) (hspsz : sp ≤ StackSize)
    (hip2 : fr2.ip = (pc2 : Int) - 1)
    (hop2 : fr2.clFn.instructions.getD pc2 0 = OpReturnValue
      ∨ fr2.clFn.instructions.getD pc2 0 = OpReturn)
    (hbp : fr2.basePointer = sp - nargs) :
    (∃ vm1, stepVM ⟨c, st, sp, g, fr :: rest⟩ = .ok vm1 ∧
      (currentFrame vm1).basePointer = sp - nargs ∧
      vm1.sp = (sp - nargs) + fn.numLocals) ∧
    (∃ vm3, stepVM ⟨c2, st2, sp2, g2, fr2 :: rest2⟩ = .ok vm3 ∧
      vm3.sp = sp - (nargs + 1) + 1) := by
  constructor
  · rw [stepVM_opCall_closure c st g sp fr rest pc nargs fn free hip hop hargs
      hcallee harity hroom]
    exact ⟨_, rfl, rfl, rfl⟩
  · obtain ⟨vm3, h1, h2, h3⟩ := stepVM_return_sp c2 st2 g2 sp2 fr2 rest2 pc2 hip2 hop2
      (by rw [hbp]; unfold StackSize at hspsz ⊢; omega)
    refine ⟨vm3, h1, ?_⟩
    rw [h2, hbp]
    omega

/-- Witness for C1 on the program `mainFn` calling `calleeFn` with one
argument from `sp₀ = 2`: the call's frame is based at 1 and the return
lands `sp` at `2 − (1 + 1) + 1 = 1`. -/
theorem claim1_call_return_sp_discipline_witness :
    ((⟨mainFn, [], -1, 0⟩ : Frame).ip = ((0 : Nat) : Int) - 1 ∧
     mainFn.instructions.getD 0 0 = OpCall ∧
     mainFn.instructions.getD 1 0 = 1 ∧
     callStack.getD (2 - 1 - 1) nullObj = closureObj calleeFn [] ∧
     1 = calleeFn.numParameters ∧
     calleeFn.instructions.getD 2 0 = OpReturnValue ∧
     (⟨calleeFn, [], 1, 1⟩ : Frame).basePointer = 2 - 1) ∧
    (∃ vm1, stepVM ⟨[], callStack, 2, [], [⟨mainFn, [], -1, 0⟩]⟩ = .ok vm1 ∧
      (currentFrame vm1).basePointer = 2 - 1 ∧
      vm1.sp = (2 - 1) + calleeFn.numLocals) ∧
    (∃ vm3, stepVM ⟨[], callStack, 2, [],
        [⟨calleeFn, [], 1, 1⟩, ⟨mainFn, [], 1, 0⟩]⟩ = .ok vm3 ∧
      vm3.sp = 2 - (1 + 1) + 1) := by
  have h := claim1_call_return_sp_discipline [] callStack [] 2 ⟨mainFn, [], -1, 0⟩ []
    0 1 calleeFn [] [] callStack [] 2 ⟨calleeFn, [], 1, 1⟩ [⟨mainFn, [], 1, 0⟩] 2
    (by decide) (by decide) (by decide) rfl rfl (by decide) (by decide) (by decide)
    (by decide) (Or.inl (by decide)) rfl
  exact ⟨⟨by decide, by decide, by decide, rfl, rfl, by decide, rfl⟩, h.1, h.2⟩

end Vaja
